import Mathlib

/-!
Verification development for the sibol real-estate back end.

Shallow embedding of the financial models and controllers of the repository
(`app/models/payment.py`, `app/models/property.py`, `app/models/contract.py`,
`app/controllers/contract_controller.py`, `app/controllers/payment_controller.py`,
`app/schemas/payment.py`), together with theorems settling the specification's
claims about penalty computation, transaction reversal, the construction
trigger, contract lifecycle endpoints, the payment boundary, and payment-plan
invariants.

SQL `Numeric`/Python `Decimal` amounts are embedded as exact rationals.
-/

namespace Sibol

/-- SQL `Numeric(15, 2)` / Python `Decimal` monetary values, embedded as exact
rationals. -/
abbrev Money := ℚ

/-- The fields of `app.models.payment.Payment` read by `calculate_penalty`:
`amount` (`Numeric(15, 2)`), `is_overdue` (`Boolean`, default `False`) and
`days_overdue` (`Integer`, default `0`). -/
structure Payment where
  amount : Money
  is_overdue : Bool
  days_overdue : ℤ
  deriving DecidableEq

/-- Python runtime exceptions arising on the embedded code paths. -/
inductive PyError
  | typeError
  | attributeError (attr : String)
  | importError (name : String)
  | nameError (name : String)
  | httpException (status_code : ℕ) (detail : String)
  | providerException (msg : String)
  deriving DecidableEq

/-- What `calculate_penalty` can return when it does not raise: a genuine
number (the annotated intent, which no branch produces) or the SQLAlchemy
`Numeric` type object that `Decimal('0.00')` actually constructs, since
`app/models/payment.py` line 5 reads `from sqlalchemy.types import Numeric as
Decimal`. -/
inductive PenaltyValue
  | value (v : Money)
  | numericTypeObject (arg : String)
  deriving DecidableEq

/-- `Payment.calculate_penalty` (`app/models/payment.py`, lines 156-164) as it
actually executes.  Because line 5 aliases `Decimal` to
`sqlalchemy.types.Numeric`, `Decimal('0.00')` and `Decimal('0.01')` construct
SQLAlchemy type objects rather than numbers: on the guard branch the method
returns the `Numeric('0.00')` type object (not zero), and on the overdue branch
`months_overdue = max(1, days_overdue // 30)` still evaluates but the
multiplication `self.amount * penalty_rate` — a number times a type object —
raises `TypeError`, so no penalty amount is ever produced. -/
def Payment.calculate_penalty (p : Payment) : Except PyError PenaltyValue :=
  if p.is_overdue = false ∨ p.days_overdue ≤ 0 then
    Except.ok (PenaltyValue.numericTypeObject "0.00")
  else
    Except.error PyError.typeError

/-- Modelled from the spec: the penalty the specification prescribes for an
overdue installment, charged on the outstanding unpaid remainder (`owed_amount`)
at the monthly rate, `owed_amount * penalty_rate_per_month * max(1,
floor(days_overdue/30))`, with the source's rate of 1% per month. -/
def specPenaltyOnRemainder (owed : Money) (days_overdue : ℤ) : Money :=
  owed * (1 / 100) * ((max 1 (days_overdue.toNat / 30) : ℕ) : Money)

/-- `TransactionStatus` (`app/models/payment.py`, lines 56-62). -/
inductive TransactionStatus
  | pending
  | processing
  | completed
  | failed
  | cancelled
  | reversed
  deriving DecidableEq

/-- `TransactionType` (`app/models/payment.py`, lines 43-53); note that the
enum declares no REVERSAL member. -/
inductive TransactionType
  | property_purchase
  | commission_payout
  | refund
  | maintenance_payment
  | penalty
  | deposit
  | withdrawal
  | transfer
  | fee
  | bonus
  deriving DecidableEq

/-- The fields of `app.models.payment.Transaction` involved in reversal:
`status`, `type`, `amount` and the self-referencing foreign key
`reversed_transaction_id`, which on a reversal entry points at the transaction
it reverses (spec: "one-directional pointer from reversal → original"). -/
structure Transaction where
  id : ℕ
  amount : Money
  type : TransactionType
  status : TransactionStatus
  reversed_transaction_id : Option ℕ
  deriving DecidableEq

/-- `Transaction.can_be_reversed` (`app/models/payment.py`, lines 239-243):
`status == COMPLETED and reversed_transaction_id is None`.  The guard reads
only the transaction's own columns. -/
def Transaction.can_be_reversed (t : Transaction) : Bool :=
  decide (t.status = TransactionStatus.completed) &&
    decide (t.reversed_transaction_id = none)

/-- Formalisation of the claim's side condition "a reversal already references
this transaction": some entry of the ledger carries this transaction's id in
its `reversed_transaction_id` pointer. -/
def referencedByReversal (ledger : List Transaction) (tid : ℕ) : Bool :=
  ledger.any fun u => u.reversed_transaction_id == some tid

/-- The pricing fields of `app.models.property.Property` used by the financial
computations.  The source's column defaults are `downpayment_percentage = 20`,
`equity_percentage = 20`, `loanable_percentage = 80`,
`construction_trigger_percentage = 50`, `turnover_readiness_percentage = 85`. -/
structure Property where
  price : Money
  downpayment_percentage : Money
  equity_percentage : Money
  loanable_percentage : Money
  construction_trigger_percentage : Money
  turnover_readiness_percentage : Money
  deriving DecidableEq

/-- `Property.downpayment_amount` (`app/models/property.py`, lines 127-130). -/
def Property.downpayment_amount (pr : Property) : Money :=
  pr.price * pr.downpayment_percentage / 100

/-- `Property.loanable_amount` (`app/models/property.py`, lines 132-135). -/
def Property.loanable_amount (pr : Property) : Money :=
  pr.price * pr.loanable_percentage / 100

/-- `Property.construction_trigger_amount` (`app/models/property.py`,
lines 137-140). -/
def Property.construction_trigger_amount (pr : Property) : Money :=
  pr.price * pr.construction_trigger_percentage / 100

/-- The financial fields of `app.models.payment.PaymentPlan` (lines 249-301);
`property` is the ORM relationship to the plan's `Property` row (`none` when
the relationship is unset). -/
structure PaymentPlan where
  total_amount : Money
  downpayment_amount : Money
  equity_amount : Money
  loanable_amount : Money
  total_paid : Money
  property : Option Property
  deriving DecidableEq

/-- `PaymentPlan.payment_progress_percentage` (`app/models/payment.py`,
lines 288-293): `0.0` when `total_amount <= 0`, otherwise
`total_paid / total_amount * 100`. -/
def PaymentPlan.payment_progress_percentage (pl : PaymentPlan) : Money :=
  if pl.total_amount ≤ 0 then 0
  else pl.total_paid / pl.total_amount * 100

/-- `PaymentPlan.can_trigger_construction` (`app/models/payment.py`,
lines 295-301): `False` when no property row is attached, otherwise
`total_paid >= total_amount * (property.construction_trigger_percentage / 100)`. -/
def PaymentPlan.can_trigger_construction (pl : PaymentPlan) : Bool :=
  match pl.property with
  | none => false
  | some pr =>
    decide (pl.total_paid ≥ pl.total_amount * (pr.construction_trigger_percentage / 100))

/-- Creation of a `PaymentPlan` row as the repository performs it: the
SQLAlchemy declarative constructor stores the given column values verbatim.  No
validation of the component split exists anywhere in the source, and no
`InvalidScheduleError` is defined or raised. -/
def PaymentPlan.create (total downpayment equity loanable paid : Money)
    (pr : Option Property) : PaymentPlan :=
  { total_amount := total
    downpayment_amount := downpayment
    equity_amount := equity
    loanable_amount := loanable
    total_paid := paid
    property := pr }

/-- The member names of `app.models.user.UserRole` (`app/models/user.py`,
lines 12-17).  There is no SUB_ADMIN member. -/
def userRoleMembers : List String :=
  ["ADMIN", "DEVELOPER", "BROKER", "AGENT", "CLIENT"]

/-- Resolution of an attribute access `UserRole.<name>`: Python raises
`AttributeError` when the enum declares no such member. -/
def getattrUserRole (name : String) : Except PyError String :=
  if userRoleMembers.contains name then Except.ok name
  else Except.error (PyError.attributeError name)

/-- The contract controller's role-gate expression
`[UserRole.ADMIN, UserRole.SUB_ADMIN, UserRole.AGENT]`
(`app/controllers/contract_controller.py`, lines 39 and 64): the list is built
by evaluating the three attribute accesses in order, and the second raises. -/
def roleGateList : Except PyError (List String) := do
  let a ← getattrUserRole "ADMIN"
  let b ← getattrUserRole "SUB_ADMIN"
  let c ← getattrUserRole "AGENT"
  pure [a, b, c]

/-- The names `app/models/contract.py` line 1 requests from `sqlalchemy`. -/
def contractModelImports : List String :=
  ["Column", "Integer", "String", "ForeignKey", "DateTime", "Decimal", "Boolean",
   "Text", "Enum"]

/-- The relevant names `sqlalchemy` actually exports: the package provides
`DECIMAL` (and `Numeric`), but no `Decimal`. -/
def sqlalchemyExports : List String :=
  ["Column", "Integer", "String", "ForeignKey", "DateTime", "DECIMAL", "Numeric",
   "Boolean", "Text", "Enum", "JSON"]

/-- Module load of `app.models.contract` — and hence of
`app.controllers.contract_controller`, whose line 2 imports `Contract` from
it: the first requested name `sqlalchemy` does not export aborts the load with
`ImportError`. -/
def load_contract_controller : Except PyError Unit :=
  match contractModelImports.find? (fun n => !(sqlalchemyExports.contains n)) with
  | some n => Except.error (PyError.importError n)
  | none => Except.ok ()

/-- The fields of `app.models.contract.Contract` touched by
`ContractController.update_contract` and `delete_contract`.  The controller
assigns the raw `status` string it receives; `ContractStatus` values are the
strings `draft`, `pending_signature`, `active`, `expired`, `terminated`,
`cancelled` (the enum has no `completed` member). -/
structure Contract where
  id : ℕ
  property_id : ℕ
  tenant_id : ℕ
  content : String
  status : String
  deriving DecidableEq

/-- The database rows visible to the contract controller: the contract table
plus the property and user ids whose existence it checks. -/
structure ContractDB where
  contracts : List Contract
  propertyIds : List ℕ
  userIds : List ℕ
  deriving DecidableEq

/-- `ContractController.update_contract` (`app/controllers/contract_controller.py`,
lines 37-60) as its body actually executes: the first statement builds the
role-gate list, whose `UserRole.SUB_ADMIN` access raises `AttributeError` —
before the contract is looked up and before any field (`status` included) is
assigned.  The remainder of the body is translated after the gate (Python
truthiness embedded as `Option`); were the gate ever passed, a truthy
`property_id` would raise `NameError`, `Property` being unimported in the
controller. -/
def update_contract (db : ContractDB) (contract_id : ℕ)
    (property_id tenant_id : Option ℕ) (content status : Option String)
    (role : String) : Except PyError (ContractDB × Contract) := do
  let allowed ← roleGateList
  if allowed.contains role = false then
    throw (PyError.httpException 403 "Not authorized")
  let some c := db.contracts.find? (fun x => x.id == contract_id)
    | throw (PyError.httpException 404 "Contract not found")
  let c ← match property_id with
    | none => pure c
    | some _ => throw (PyError.nameError "Property")
  let c ← match tenant_id with
    | none => pure c
    | some tid =>
      if db.userIds.contains tid then pure { c with tenant_id := tid }
      else throw (PyError.httpException 404 "Tenant not found")
  let c := match content with
    | none => c
    | some txt => { c with content := txt }
  let c := match status with
    | none => c
    | some s => { c with status := s }
  return ({ db with contracts := db.contracts.map fun x => if x.id == contract_id then c else x }, c)

/-- `ContractController.delete_contract` (`app/controllers/contract_controller.py`,
lines 62-71) as its body actually executes: the same role-gate list raises
`AttributeError` on every call, so `db.delete(contract)` is never reached; the
deletion code after the gate is translated for reference. -/
def delete_contract (db : ContractDB) (contract_id : ℕ) (role : String) :
    Except PyError (ContractDB × String) := do
  let allowed ← roleGateList
  if allowed.contains role = false then
    throw (PyError.httpException 403 "Not authorized")
  let some _ := db.contracts.find? (fun x => x.id == contract_id)
    | throw (PyError.httpException 404 "Contract not found")
  return ({ db with contracts := db.contracts.filter fun x => x.id != contract_id },
          "Contract deleted")

/-- Python type annotations, used to state claims about the declared shapes of
the payment boundary. -/
inductive PyType
  | pyFloat
  | pyInt
  | pyStr
  | pyOptionalStr
  | pyDatetime
  | pyStatusEnum
  deriving DecidableEq

/-- `app.schemas.payment.PaymentCreate` (`app/schemas/payment.py`, lines 10-12):
the request body of the payment-creation endpoint, field by field. -/
def PaymentCreate.fields : List (String × PyType) :=
  [("amount", PyType.pyFloat), ("description", PyType.pyStr)]

/-- `app.schemas.payment.PaymentResponse` (`app/schemas/payment.py`,
lines 14-23): the response body, field by field. -/
def PaymentResponse.fields : List (String × PyType) :=
  [("id", PyType.pyInt), ("user_id", PyType.pyInt), ("transaction_id", PyType.pyStr),
   ("amount", PyType.pyFloat), ("currency", PyType.pyStr), ("status", PyType.pyStatusEnum),
   ("qr_code_url", PyType.pyOptionalStr), ("description", PyType.pyOptionalStr),
   ("created_at", PyType.pyDatetime)]

/-- Parameter annotations of `PaymentController.create_payment`
(`app/controllers/payment_controller.py`, lines 10-11). -/
def create_payment_params : List (String × PyType) :=
  [("user_id", PyType.pyInt), ("amount", PyType.pyFloat), ("description", PyType.pyStr)]

/-- `PaymentStatus` (`app/models/payment.py`, lines 12-19). -/
inductive PaymentStatus
  | pending
  | processing
  | successful
  | failed
  | cancelled
  | refunded
  | expired
  deriving DecidableEq

/-- A `payments` row as `PaymentController.create_payment` inserts it. -/
structure PaymentRow where
  user_id : ℕ
  transaction_id : String
  amount : Money
  currency : String
  status : PaymentStatus
  qr_code_url : Option String
  description : String
  deriving DecidableEq

/-- A `balances` row.  The controller imports `Balance` from
`app.models.payment`, which does not define it; the matching table is declared
in `app/models/simple_models.py` with `user_id` and `amount`. -/
structure Balance where
  user_id : ℕ
  amount : Money
  deriving DecidableEq

/-- The persisted state the payment controller touches. -/
structure PaymentDB where
  users : List ℕ
  payments : List PaymentRow
  balances : List Balance
  deriving DecidableEq

/-- The value returned by `create_payment_intent`
(`app/services/payment_service.py`): provider id and attributes. -/
structure PaymentIntent where
  id : String
  currency : String
  qr_code_url : Option String
  deriving DecidableEq

/-- The module-level class names `app/models/payment.py` defines; `Balance` is
not among them — the table of that name is declared only in
`app/models/simple_models.py`. -/
def paymentModelNames : List String :=
  ["PaymentStatus", "PaymentMethod", "PaymentType", "TransactionType",
   "TransactionStatus", "Payment", "Transaction", "PaymentPlan",
   "ScheduledPayment", "PaymentWebhook"]

/-- Module load of `app.controllers.payment_controller` (line 3:
`from app.models.payment import Payment, PaymentStatus, Balance`): the first
requested name the source module does not define aborts the load with
`ImportError`. -/
def load_payment_controller : Except PyError Unit :=
  match ["Payment", "PaymentStatus", "Balance"].find?
      (fun n => !(paymentModelNames.contains n)) with
  | some n => Except.error (PyError.importError n)
  | none => Except.ok ()

/-- `PaymentController.create_payment` (`app/controllers/payment_controller.py`,
lines 10-44) as the program can actually invoke it: the controller module must
load first, and its `Balance` import fails, so every call raises `ImportError`
before any database access and nothing is ever committed.  The handler body
that would run after a successful load — user check, provider call, payment
insert and first `db.commit()`, balance upsert and second `db.commit()` — is
translated after the import gate to show where the commits would fall; it is
unreachable.  The first component of the result is the ordered list of states
made durable by commits.  Monetary amounts — `float` in the source, the
subject of C8 — are carried as rationals here. -/
def create_payment (db : PaymentDB) (user_id : ℕ) (amount : Money)
    (description : String) (intent : Except String PaymentIntent) :
    List PaymentDB × Except PyError PaymentRow :=
  match load_payment_controller with
  | Except.error e => ([], Except.error e)
  | Except.ok _ =>
    if db.users.contains user_id = false then
      ([], Except.error (PyError.httpException 404 "User not found"))
    else
      match intent with
      | .error e => ([], Except.error (PyError.providerException e))
      | .ok it =>
        let payment : PaymentRow :=
          { user_id := user_id
            transaction_id := it.id
            amount := amount
            currency := it.currency
            status := PaymentStatus.pending
            qr_code_url := it.qr_code_url
            description := description }
        let db1 : PaymentDB := { db with payments := db.payments ++ [payment] }
        let existing := db1.balances.find? fun b => b.user_id == user_id
        let bal := match existing with
          | some b => b
          | none => { user_id := user_id, amount := 0 }
        let updated : Balance := { bal with amount := bal.amount + amount }
        let db2 : PaymentDB :=
          { db1 with balances :=
              match existing with
              | some _ => db1.balances.map fun b => if b.user_id == user_id then updated else b
              | none => db1.balances ++ [updated] }
        ([db1, db2], Except.ok payment)

/-- C1 counterexample: under the source's `Decimal = sqlalchemy.types.Numeric`
alias, a payment 45 days overdue raises `TypeError` instead of incurring a
penalty strictly greater than zero, a payment 15 days overdue also raises
`TypeError` instead of incurring exactly zero, and a non-overdue payment
returns the `Numeric('0.00')` type object, which is not the number 0. -/
theorem C1_counterexample :
    Payment.calculate_penalty { amount := 100, is_overdue := true, days_overdue := 45 } =
        Except.error PyError.typeError ∧
      Payment.calculate_penalty { amount := 100, is_overdue := true, days_overdue := 15 } =
        Except.error PyError.typeError ∧
      Payment.calculate_penalty { amount := 100, is_overdue := false, days_overdue := 0 } ≠
        Except.ok (PenaltyValue.value 0) := by
  refine ⟨rfl, rfl, by simp [Payment.calculate_penalty]⟩

/-- C1 (amended): no overdue payment is ever charged a numeric penalty: for a
payment flagged overdue with `days_overdue >= 1` — below or above the 30-day
mark alike — `calculate_penalty` raises `TypeError`, because
`amount * penalty_rate` multiplies a number by the SQLAlchemy `Numeric` type
object that the aliased `Decimal('0.01')` constructs; on the
not-overdue/non-positive-days branch it returns the `Numeric('0.00')` type
object rather than the number zero. -/
theorem C1_amended (p : Payment) :
    (p.is_overdue = true → 1 ≤ p.days_overdue →
      p.calculate_penalty = Except.error PyError.typeError) ∧
    (p.is_overdue = false ∨ p.days_overdue ≤ 0 →
      p.calculate_penalty = Except.ok (PenaltyValue.numericTypeObject "0.00")) := by
  constructor
  · intro hov hd
    unfold Payment.calculate_penalty
    rw [if_neg]
    push_neg
    exact ⟨by simp [hov], by omega⟩
  · intro h
    exact if_pos h

/-- Witness for `C1_amended` at concrete payments: 45 days overdue raises
`TypeError`; not overdue returns the `Numeric('0.00')` type object. -/
theorem C1_amended_witness :
    Payment.calculate_penalty { amount := 100, is_overdue := true, days_overdue := 45 } =
        Except.error PyError.typeError ∧
      Payment.calculate_penalty { amount := 100, is_overdue := false, days_overdue := 0 } =
        Except.ok (PenaltyValue.numericTypeObject "0.00") :=
  ⟨(C1_amended { amount := 100, is_overdue := true, days_overdue := 45 }).1 rfl (by norm_num),
   (C1_amended { amount := 100, is_overdue := false, days_overdue := 0 }).2 (Or.inl rfl)⟩

/-- C2 counterexample: an installment of amount 100 with 50 already paid
(outstanding remainder 50), 45 days overdue.  The claim's formula prescribes a
penalty of `50 * 1% * 1 = 1/2`, but the code raises `TypeError` at
`self.amount * penalty_rate` (a number times the SQLAlchemy `Numeric` type
object), so no penalty — remainder-based or otherwise — is ever added. -/
theorem C2_counterexample :
    specPenaltyOnRemainder 50 45 = 1 / 2 ∧
      Payment.calculate_penalty { amount := 100, is_overdue := true, days_overdue := 45 } =
        Except.error PyError.typeError ∧
      Except.error PyError.typeError ≠
        Except.ok (PenaltyValue.value (specPenaltyOnRemainder 50 45)) := by
  have h : (max 1 ((45 : ℤ).toNat / 30) : ℕ) = 1 := by decide
  refine ⟨?_, rfl, by simp⟩
  unfold specPenaltyOnRemainder
  rw [h]
  norm_num

/-- C2 (amended): for every installment flagged overdue with
`days_overdue >= 1`, the penalty computation adds no amount at all: it raises
`TypeError` (the 1%-rate literal is a SQLAlchemy `Numeric` type object under
the alias), and in particular it never yields the remainder-based value the
claim prescribes, for any outstanding remainder. -/
theorem C2_amended (p : Payment) (hov : p.is_overdue = true) (hd : 1 ≤ p.days_overdue) :
    p.calculate_penalty = Except.error PyError.typeError ∧
      ∀ owed : Money,
        p.calculate_penalty ≠
          Except.ok (PenaltyValue.value (specPenaltyOnRemainder owed p.days_overdue)) := by
  have he : p.calculate_penalty = Except.error PyError.typeError := by
    unfold Payment.calculate_penalty
    rw [if_neg]
    push_neg
    exact ⟨by simp [hov], by omega⟩
  refine ⟨he, fun owed => ?_⟩
  rw [he]
  simp

/-- Witness for `C2_amended` at a concrete overdue payment. -/
theorem C2_amended_witness :
    Payment.calculate_penalty { amount := 100, is_overdue := true, days_overdue := 45 } =
      Except.error PyError.typeError :=
  (C2_amended { amount := 100, is_overdue := true, days_overdue := 45 } rfl (by norm_num)).1

/-- C3 counterexample: a completed PROPERTY_PURCHASE transaction (id 1) that an
existing reversal entry (id 2, `reversed_transaction_id = 1`) already
references still reports `can_be_reversed = true`: the guard never consults the
ledger, so a second reversal is not rejected by it. -/
theorem C3_counterexample :
    referencedByReversal
        [{ id := 1, amount := 500, type := TransactionType.property_purchase,
           status := TransactionStatus.completed, reversed_transaction_id := none },
         { id := 2, amount := -500, type := TransactionType.refund,
           status := TransactionStatus.completed, reversed_transaction_id := some 1 }] 1 = true ∧
      Transaction.can_be_reversed
        { id := 1, amount := 500, type := TransactionType.property_purchase,
          status := TransactionStatus.completed, reversed_transaction_id := none } = true := by
  exact ⟨rfl, rfl⟩

/-- C3 (amended): reversibility is decided locally from the transaction's own
columns: `can_be_reversed` holds iff the status is COMPLETED and its own
`reversed_transaction_id` is unset (it is not itself a reversal).  Whether some
other reversal already references the transaction is not checked, and no
`AlreadyReversedError`/`InvalidReversalError` (nor a REVERSAL transaction type)
exists in the repository. -/
theorem C3_amended (t : Transaction) :
    t.can_be_reversed = true ↔
      (t.status = TransactionStatus.completed ∧ t.reversed_transaction_id = none) := by
  unfold Transaction.can_be_reversed
  simp [Bool.and_eq_true, decide_eq_true_iff]

/-- C4: with a property row attached, `can_trigger_construction` is true
exactly when the plan's paid total has reached
`total_amount * construction_trigger_percentage / 100`; the check is a pure
computation over the given cumulative paid amount (so it holds in particular
for the principal-only total the specification feeds it). -/
theorem C4_can_trigger_construction (pl : PaymentPlan) (pr : Property)
    (h : pl.property = some pr) :
    pl.can_trigger_construction = true ↔
      pl.total_paid ≥ pl.total_amount * pr.construction_trigger_percentage / 100 := by
  unfold PaymentPlan.can_trigger_construction
  rw [h]
  simp [decide_eq_true_iff, mul_div_assoc]

/-- Witness for `C4_can_trigger_construction`: a 1,000,000 plan with a 50%
trigger fires exactly at 500,000 paid. -/
theorem C4_witness :
    PaymentPlan.can_trigger_construction
      { total_amount := 1000000, downpayment_amount := 200000, equity_amount := 200000,
        loanable_amount := 600000, total_paid := 500000,
        property := some { price := 1000000, downpayment_percentage := 20,
                           equity_percentage := 20, loanable_percentage := 80,
                           construction_trigger_percentage := 50,
                           turnover_readiness_percentage := 85 } } = true :=
  (C4_can_trigger_construction _ _ rfl).2 (by norm_num)

/-- C5 counterexample: the claim's "always legal" case — an ADMIN moving a
DRAFT contract to TERMINATED — does not succeed: the call fails with
`AttributeError` at the role-gate list (`UserRole.SUB_ADMIN` does not exist),
before any status is read or written. -/
theorem C5_counterexample :
    update_contract
        { contracts := [{ id := 1, property_id := 10, tenant_id := 20,
                          content := "lease", status := "draft" }],
          propertyIds := [10], userIds := [20] }
        1 none none none (some "terminated") "ADMIN" =
      Except.error (PyError.attributeError "SUB_ADMIN") := by
  rfl

/-- C5 (amended): no status change ever succeeds and no transition rule is
enforced: every `update_contract` call — whatever the role, the current
status, or the requested status — raises `AttributeError` at the
`UserRole.SUB_ADMIN` access before the contract is even looked up; no
`InvalidTransitionError` exists in the repository, and the controller's module
cannot even be imported, `app/models/contract.py` failing on
`from sqlalchemy import Decimal`. -/
theorem C5_amended (db : ContractDB) (contract_id : ℕ)
    (property_id tenant_id : Option ℕ) (content status : Option String) (role : String) :
    update_contract db contract_id property_id tenant_id content status role =
      Except.error (PyError.attributeError "SUB_ADMIN") ∧
      load_contract_controller = Except.error (PyError.importError "Decimal") :=
  ⟨rfl, rfl⟩

/-- C6: once ACTIVE — indeed ever — a contract is never deleted:
`delete_contract` never returns a success for any input, because every call
fails at the role-gate list with `AttributeError` before `db.delete` is
reached (and the controller's module cannot even be imported), so no contract
row is ever removed.  The guarantee is degenerate: it comes from the crashing
gate, not from any status check. -/
theorem C6_never_deleted (db : ContractDB) (contract_id : ℕ) (role : String)
    (out : ContractDB × String) :
    delete_contract db contract_id role ≠ Except.ok out ∧
      delete_contract db contract_id role =
        Except.error (PyError.attributeError "SUB_ADMIN") ∧
      load_contract_controller = Except.error (PyError.importError "Decimal") := by
  have he : delete_contract db contract_id role =
      Except.error (PyError.attributeError "SUB_ADMIN") := rfl
  refine ⟨?_, he, rfl⟩
  rw [he]
  simp

/-- C7 counterexample: a payment plan whose components sum to 30 against a
total of 100 is created without any error — the split invariant is not
validated at creation. -/
theorem C7_counterexample :
    (PaymentPlan.create 100 10 10 10 0 none).downpayment_amount +
        (PaymentPlan.create 100 10 10 10 0 none).equity_amount +
        (PaymentPlan.create 100 10 10 10 0 none).loanable_amount ≠
      (PaymentPlan.create 100 10 10 10 0 none).total_amount := by
  show (10 : Money) + 10 + 10 ≠ 100
  norm_num

/-- C7 (amended): creation performs no validation of the split invariant: for
any component amounts — even amounts that do not sum to the total — the created
plan stores every value verbatim, and no `InvalidScheduleError` exists in the
repository to reject it. -/
theorem C7_amended (total d e l paid : Money) (pr : Option Property)
    (hbad : d + e + l ≠ total) :
    (PaymentPlan.create total d e l paid pr).total_amount = total ∧
      (PaymentPlan.create total d e l paid pr).downpayment_amount +
          (PaymentPlan.create total d e l paid pr).equity_amount +
          (PaymentPlan.create total d e l paid pr).loanable_amount ≠
        (PaymentPlan.create total d e l paid pr).total_amount :=
  ⟨rfl, hbad⟩

/-- Witness for `C7_amended` at a concrete violating split. -/
theorem C7_amended_witness :
    (PaymentPlan.create 500 100 100 100 0 none).total_amount = 500 ∧
      (PaymentPlan.create 500 100 100 100 0 none).downpayment_amount +
          (PaymentPlan.create 500 100 100 100 0 none).equity_amount +
          (PaymentPlan.create 500 100 100 100 0 none).loanable_amount ≠
        (PaymentPlan.create 500 100 100 100 0 none).total_amount :=
  C7_amended 500 100 100 100 0 none (by norm_num)

/-- C8 counterexample: the request schema `PaymentCreate` declares its monetary
`amount` as a Python `float` — not a minor-unit integer — and carries no
currency field at all. -/
theorem C8_counterexample :
    PaymentCreate.fields.lookup "amount" = some PyType.pyFloat ∧
      PyType.pyFloat ≠ PyType.pyInt ∧
      PaymentCreate.fields.lookup "currency" = none := by
  exact ⟨rfl, by decide, rfl⟩

/-- C8 (amended): monetary amounts cross the payment boundary as Python
`float`s: the request schema declares `amount: float` with no currency field,
the response schema declares `amount: float` alongside a `currency: str`, and
the controller's `amount` parameter is likewise `float`.  No minor-unit-integer
representation appears at the boundary. -/
theorem C8_amended :
    PaymentCreate.fields.lookup "amount" = some PyType.pyFloat ∧
      PaymentCreate.fields.lookup "currency" = none ∧
      PaymentResponse.fields.lookup "amount" = some PyType.pyFloat ∧
      PaymentResponse.fields.lookup "currency" = some PyType.pyStr ∧
      create_payment_params.lookup "amount" = some PyType.pyFloat :=
  ⟨rfl, rfl, rfl, rfl, rfl⟩

/-- C9: every payment-application attempt leaves all persisted state exactly
unchanged — trivially all-or-nothing — because the controller module never
loads: `Balance` is imported from `app.models.payment`, which does not define
it, so every call fails with `ImportError` before any insert or commit, and
the committed-state list is empty for every input.  The guarantee is
degenerate: no payment is ever applied at all, so in particular none is ever
partially committed. -/
theorem C9_all_or_nothing (db : PaymentDB) (user_id : ℕ) (amount : Money)
    (description : String) (intent : Except String PaymentIntent) :
    create_payment db user_id amount description intent =
      ([], Except.error (PyError.importError "Balance")) := by
  rfl

/-- C10: `payment_progress_percentage` never divides by zero: it returns 0 when
`total_amount <= 0` and `total_paid / total_amount * 100` when
`total_amount > 0`. -/
theorem C10_payment_progress (pl : PaymentPlan) :
    (pl.total_amount ≤ 0 → pl.payment_progress_percentage = 0) ∧
    (0 < pl.total_amount →
      pl.payment_progress_percentage = pl.total_paid / pl.total_amount * 100) := by
  unfold PaymentPlan.payment_progress_percentage
  constructor
  · intro h
    rw [if_pos h]
  · intro h
    rw [if_neg (not_le.mpr h)]

/-- Witness for `C10_payment_progress`: a zero-total plan reports 0 progress; a
200-total plan with 50 paid reports `50 / 200 * 100`. -/
theorem C10_payment_progress_witness :
    PaymentPlan.payment_progress_percentage
        { total_amount := 0, downpayment_amount := 0, equity_amount := 0,
          loanable_amount := 0, total_paid := 0, property := none } = 0 ∧
    PaymentPlan.payment_progress_percentage
        { total_amount := 200, downpayment_amount := 40, equity_amount := 40,
          loanable_amount := 120, total_paid := 50, property := none } = 50 / 200 * 100 :=
  ⟨(C10_payment_progress
      { total_amount := 0, downpayment_amount := 0, equity_amount := 0,
        loanable_amount := 0, total_paid := 0, property := none }).1 (by norm_num),
   (C10_payment_progress
      { total_amount := 200, downpayment_amount := 40, equity_amount := 40,
        loanable_amount := 120, total_paid := 50, property := none }).2 (by norm_num)⟩

end Sibol
